import Mathlib

/-!
# Verification of `krbn::components_manager`
(`src/core/console_user_server/include/components_manager.hpp`)

Shallow embedding of the lifecycle orchestrator of the per-user companion
process.  The orchestrator owns eleven optional component slots; every event
handler is a task pushed onto a serial queue, so each handler body runs
atomically against the state.  We model the state as one `Bool` per owned
slot (`true` = the `unique_ptr`/`shared_ptr` member is non-null) and each
queued task body as a pure function `State → State × List Effect`, where the
`Effect` trace records the externally visible actions (constructions,
destructions, subscriptions, starts, version checks, forwarding calls,
logging, UI launches) in the exact order the C++ statements perform them.
-/

namespace Krbn

/-- Externally visible actions performed by `components_manager` handlers,
in source order.  A `destroy…` effect is emitted only when the slot was
non-null (resetting a null smart pointer destroys nothing). -/
inductive Effect where
  | manualVersionCheck
  | createUserConfigDirectory
  | constructReceiver
  | destroyReceiver
  | subscribeReceiverBound
  | subscribeReceiverBindFailed
  | subscribeReceiverClosed
  | startReceiver
  | constructGrabberClient
  | destroyGrabberClient
  | subscribeGrabberClientConnected
  | subscribeGrabberClientConnectFailed
  | subscribeGrabberClientClosed
  | startGrabberClient
  | connectConsoleUserServer
  | constructConfigurationMonitor
  | destroyConfigurationMonitor
  | startConfigurationMonitor
  | constructMenuProcessManager
  | destroyMenuProcessManager
  | constructUpdaterProcessManager
  | destroyUpdaterProcessManager
  | constructSystemPreferencesMonitor
  | destroySystemPreferencesMonitor
  | subscribeSystemPreferencesChanged
  | startSystemPreferencesMonitor
  | constructFrontmostApplicationObserver
  | destroyFrontmostApplicationObserver
  | subscribeFrontmostApplicationChanged
  | startFrontmostApplicationObserver
  | constructInputSourceObserver
  | destroyInputSourceObserver
  | subscribeInputSourceChanged
  | startInputSourceObserver
  | constructGrabberAlertsMonitor
  | destroyGrabberAlertsMonitor
  | subscribeAlertsChanged
  | startGrabberAlertsMonitor
  | forwardSystemPreferences (snapshot : Nat)
  | forwardFrontmostApplication (bundleIdentifier filePath : String)
  | forwardInputSource (identifiers : Nat)
  | logAlertsUpdated
  | launchPreferences
  | destroyConsoleUserIdMonitor
  | destroyVersionMonitor
  deriving DecidableEq, Repr

/-- The component slots owned by `components_manager`.  Each field mirrors a
smart-pointer member of the C++ class (`true` = non-null). -/
structure State where
  version_monitor : Bool
  grabber_alerts_monitor : Bool
  console_user_id_monitor : Bool
  receiver : Bool
  grabber_client : Bool
  configuration_monitor : Bool
  menu_process_manager : Bool
  updater_process_manager : Bool
  system_preferences_monitor : Bool
  frontmost_application_observer : Bool
  input_source_observer : Bool
  deriving DecidableEq, Repr

/-- `components_manager::stop_child_components`: resets the five child
observers then the configuration monitor, in that source order. -/
def stop_child_components (s : State) : State × List Effect :=
  (({ s with
      menu_process_manager := false
      updater_process_manager := false
      system_preferences_monitor := false
      frontmost_application_observer := false
      input_source_observer := false
      configuration_monitor := false }),
   (if s.menu_process_manager then [Effect.destroyMenuProcessManager] else []) ++
   (if s.updater_process_manager then [Effect.destroyUpdaterProcessManager] else []) ++
   (if s.system_preferences_monitor then [Effect.destroySystemPreferencesMonitor] else []) ++
   (if s.frontmost_application_observer then [Effect.destroyFrontmostApplicationObserver] else []) ++
   (if s.input_source_observer then [Effect.destroyInputSourceObserver] else []) ++
   (if s.configuration_monitor then [Effect.destroyConfigurationMonitor] else []))

/-- `components_manager::stop_grabber_client`: `grabber_client_ = nullptr;`
first, `stop_child_components();` second. -/
def stop_grabber_client (s : State) : State × List Effect :=
  let clientEffects := if s.grabber_client then [Effect.destroyGrabberClient] else []
  let p := stop_child_components { s with grabber_client := false }
  (p.1, clientEffects ++ p.2)

/-- `components_manager::start_child_components`: constructs the
configuration monitor, then the five child observers (subscribing and
starting each observer that has a start operation), and starts the
configuration monitor last.  Each assignment constructs the new component
before the old one (if any) is destroyed, per C++ move-assignment order. -/
def start_child_components (s : State) : State × List Effect :=
  (({ s with
      configuration_monitor := true
      menu_process_manager := true
      updater_process_manager := true
      system_preferences_monitor := true
      frontmost_application_observer := true
      input_source_observer := true }),
   [Effect.constructConfigurationMonitor] ++
   (if s.configuration_monitor then [Effect.destroyConfigurationMonitor] else []) ++
   [Effect.constructMenuProcessManager] ++
   (if s.menu_process_manager then [Effect.destroyMenuProcessManager] else []) ++
   [Effect.constructUpdaterProcessManager] ++
   (if s.updater_process_manager then [Effect.destroyUpdaterProcessManager] else []) ++
   [Effect.constructSystemPreferencesMonitor] ++
   (if s.system_preferences_monitor then [Effect.destroySystemPreferencesMonitor] else []) ++
   [Effect.subscribeSystemPreferencesChanged,
    Effect.startSystemPreferencesMonitor,
    Effect.constructFrontmostApplicationObserver] ++
   (if s.frontmost_application_observer then [Effect.destroyFrontmostApplicationObserver] else []) ++
   [Effect.subscribeFrontmostApplicationChanged,
    Effect.startFrontmostApplicationObserver,
    Effect.constructInputSourceObserver] ++
   (if s.input_source_observer then [Effect.destroyInputSourceObserver] else []) ++
   [Effect.subscribeInputSourceChanged,
    Effect.startInputSourceObserver,
    Effect.startConfigurationMonitor])

/-- `components_manager::start_grabber_client`: early-returns when a client
already exists; otherwise constructs the client, subscribes to its
`connected` / `connect_failed` / `closed` signals and starts it. -/
def start_grabber_client (s : State) : State × List Effect :=
  if s.grabber_client then (s, [])
  else
    ({ s with grabber_client := true },
     [Effect.constructGrabberClient,
      Effect.subscribeGrabberClientConnected,
      Effect.subscribeGrabberClientConnectFailed,
      Effect.subscribeGrabberClientClosed,
      Effect.startGrabberClient])

/-- `components_manager::start_grabber_alerts_monitor`: early-returns when
the monitor already exists; otherwise constructs it, subscribes to
`alerts_changed` and starts it. -/
def start_grabber_alerts_monitor (s : State) : State × List Effect :=
  if s.grabber_alerts_monitor then (s, [])
  else
    ({ s with grabber_alerts_monitor := true },
     [Effect.constructGrabberAlertsMonitor,
      Effect.subscribeAlertsChanged,
      Effect.startGrabberAlertsMonitor])

/-- Queued task body of the `console_user_id_changed` signal handler
(constructor, lines 37–73): manual version check (if the version monitor is
alive), best-effort creation of the user configuration directory, then: if
`uid != getuid()` call `stop_grabber_client()` and return; otherwise assign
a fresh `receiver` into `receiver_` (new constructed, old destroyed),
subscribe to its `bound` / `bind_failed` / `closed` signals and start it.
`selfUid` stands for the value of `getuid()`. -/
def console_user_id_changed_task (selfUid uid : Nat) (s : State) : State × List Effect :=
  let headEffects :=
    (if s.version_monitor then [Effect.manualVersionCheck] else []) ++
    [Effect.createUserConfigDirectory]
  if uid ≠ selfUid then
    let p := stop_grabber_client s
    (p.1, headEffects ++ p.2)
  else
    ({ s with receiver := true },
     headEffects ++
     [Effect.constructReceiver] ++
     (if s.receiver then [Effect.destroyReceiver] else []) ++
     [Effect.subscribeReceiverBound,
      Effect.subscribeReceiverBindFailed,
      Effect.subscribeReceiverClosed,
      Effect.startReceiver])

/-- Queued task body of the receiver's `bound` handler (lines 54–57):
`stop_grabber_client(); start_grabber_client();`. -/
def receiver_bound_task (s : State) : State × List Effect :=
  let p := stop_grabber_client s
  let q := start_grabber_client p.1
  (q.1, p.2 ++ q.2)

/-- Queued task body of the receiver's `bind_failed` handler (lines 61–63):
`stop_grabber_client();`. -/
def receiver_bind_failed_task (s : State) : State × List Effect :=
  stop_grabber_client s

/-- Queued task body of the receiver's `closed` handler (lines 67–69):
`stop_grabber_client();`. -/
def receiver_closed_task (s : State) : State × List Effect :=
  stop_grabber_client s

/-- Queued task body of the grabber client's `connected` handler
(lines 121–132): manual version check, `async_connect_console_user_server`
if the client is alive, then `stop_child_components(); start_child_components();`. -/
def grabber_client_connected_task (s : State) : State × List Effect :=
  let headEffects :=
    (if s.version_monitor then [Effect.manualVersionCheck] else []) ++
    (if s.grabber_client then [Effect.connectConsoleUserServer] else [])
  let p := stop_child_components s
  let q := start_child_components p.1
  (q.1, headEffects ++ p.2 ++ q.2)

/-- Queued task body of the grabber client's `connect_failed` handler
(lines 136–142): manual version check, then `stop_child_components();`. -/
def grabber_client_connect_failed_task (s : State) : State × List Effect :=
  let headEffects := if s.version_monitor then [Effect.manualVersionCheck] else []
  let p := stop_child_components s
  (p.1, headEffects ++ p.2)

/-- Queued task body of the grabber client's `closed` handler
(lines 146–152): manual version check, then `stop_child_components();`
(the same statements as the `connect_failed` handler). -/
def grabber_client_closed_task (s : State) : State × List Effect :=
  let headEffects := if s.version_monitor then [Effect.manualVersionCheck] else []
  let p := stop_child_components s
  (p.1, headEffects ++ p.2)

/-- Queued task body of the `system_preferences_changed` observer handler
(lines 179–183): forwards the snapshot via
`async_system_preferences_updated` iff `grabber_client_` is non-null. -/
def system_preferences_changed_task (snapshot : Nat) (s : State) : State × List Effect :=
  (s, if s.grabber_client then [Effect.forwardSystemPreferences snapshot] else [])

/-- The two reserved companion-viewer bundle identifiers filtered by the
`frontmost_application_changed` handler (lines 194–195). -/
def eventViewerBundleIdentifiers : List String :=
  ["org.pqrs.Karabiner.EventViewer", "org.pqrs.Karabiner-EventViewer"]

/-- Queued task body of the `frontmost_application_changed` observer handler
(lines 193–202): returns without forwarding when the bundle identifier is
one of the two reserved viewer identifiers; otherwise forwards via
`async_frontmost_application_changed` iff `grabber_client_` is non-null. -/
def frontmost_application_changed_task (bundleIdentifier filePath : String)
    (s : State) : State × List Effect :=
  if bundleIdentifier = "org.pqrs.Karabiner.EventViewer" ∨
     bundleIdentifier = "org.pqrs.Karabiner-EventViewer" then
    (s, [])
  else
    (s, if s.grabber_client then
          [Effect.forwardFrontmostApplication bundleIdentifier filePath]
        else [])

/-- Queued task body of the `input_source_changed` observer handler
(lines 212–216): forwards via `async_input_source_changed` iff
`grabber_client_` is non-null. -/
def input_source_changed_task (identifiers : Nat) (s : State) : State × List Effect :=
  (s, if s.grabber_client then [Effect.forwardInputSource identifiers] else [])

/-- Queued task body of the `alerts_changed` handler (lines 102–107): logs
unconditionally, launches the preferences UI iff the alert list is
non-empty.  The alert payloads themselves are opaque (`Nat`). -/
def alerts_changed_task (alerts : List Nat) (s : State) : State × List Effect :=
  (s, [Effect.logAlertsUpdated] ++
      (if alerts.isEmpty then [] else [Effect.launchPreferences]))

/-- The final teardown task enqueued by `~components_manager`
(lines 80–87): `stop_grabber_client()`, then reset the console-user-id
monitor, the receiver, the grabber-alerts monitor and the version monitor,
in that order. -/
def destructor_task (s : State) : State × List Effect :=
  let p := stop_grabber_client s
  (({ p.1 with
      console_user_id_monitor := false
      receiver := false
      grabber_alerts_monitor := false
      version_monitor := false }),
   p.2 ++
   (if p.1.console_user_id_monitor then [Effect.destroyConsoleUserIdMonitor] else []) ++
   (if p.1.receiver then [Effect.destroyReceiver] else []) ++
   (if p.1.grabber_alerts_monitor then [Effect.destroyGrabberAlertsMonitor] else []) ++
   (if p.1.version_monitor then [Effect.destroyVersionMonitor] else []))

/-- State right after the `components_manager` constructor ran: version
monitor, grabber-alerts monitor and console-user-id monitor created; no
receiver, client or child components. -/
def initialState : State :=
  { version_monitor := true
    grabber_alerts_monitor := true
    console_user_id_monitor := true
    receiver := false
    grabber_client := false
    configuration_monitor := false
    menu_process_manager := false
    updater_process_manager := false
    system_preferences_monitor := false
    frontmost_application_observer := false
    input_source_observer := false }

/-- The fully `Active` state: every slot non-null (endpoint bound, client
connected, child group present). -/
def activeState : State :=
  { version_monitor := true
    grabber_alerts_monitor := true
    console_user_id_monitor := true
    receiver := true
    grabber_client := true
    configuration_monitor := true
    menu_process_manager := true
    updater_process_manager := true
    system_preferences_monitor := true
    frontmost_application_observer := true
    input_source_observer := true }

/-- Events processed by the orchestrator's serial queue, one per queued
task kind. -/
inductive Event where
  | consoleUserIdChanged (uid : Nat)
  | receiverBound
  | receiverBindFailed
  | receiverClosed
  | grabberClientConnected
  | grabberClientConnectFailed
  | grabberClientClosed
  | systemPreferencesChanged (snapshot : Nat)
  | frontmostApplicationChanged (bundleIdentifier filePath : String)
  | inputSourceChanged (identifiers : Nat)
  | alertsChanged (alerts : List Nat)
  deriving DecidableEq, Repr

/-- Dispatch one queued event to its task body. -/
def handleEvent (selfUid : Nat) (e : Event) (s : State) : State × List Effect :=
  match e with
  | Event.consoleUserIdChanged uid => console_user_id_changed_task selfUid uid s
  | Event.receiverBound => receiver_bound_task s
  | Event.receiverBindFailed => receiver_bind_failed_task s
  | Event.receiverClosed => receiver_closed_task s
  | Event.grabberClientConnected => grabber_client_connected_task s
  | Event.grabberClientConnectFailed => grabber_client_connect_failed_task s
  | Event.grabberClientClosed => grabber_client_closed_task s
  | Event.systemPreferencesChanged p => system_preferences_changed_task p s
  | Event.frontmostApplicationChanged b f => frontmost_application_changed_task b f s
  | Event.inputSourceChanged i => input_source_changed_task i s
  | Event.alertsChanged a => alerts_changed_task a s

/-- Run a list of events in queue order, threading the state and
concatenating the effect traces. -/
def run (selfUid : Nat) (s : State) : List Event → State × List Effect
  | [] => (s, [])
  | e :: es =>
      let p := handleEvent selfUid e s
      let q := run selfUid p.1 es
      (q.1, p.2 ++ q.2)

/-- `true` iff every member of the child group is present. -/
def childGroupPresent (s : State) : Bool :=
  s.configuration_monitor && s.menu_process_manager && s.updater_process_manager &&
  s.system_preferences_monitor && s.frontmost_application_observer &&
  s.input_source_observer

/-- `true` iff every member of the child group is absent. -/
def childGroupAbsent (s : State) : Bool :=
  !s.configuration_monitor && !s.menu_process_manager && !s.updater_process_manager &&
  !s.system_preferences_monitor && !s.frontmost_application_observer &&
  !s.input_source_observer

/-- `true` for the effects that destroy a child-group member. -/
def isChildDestroyEffect : Effect → Bool
  | Effect.destroyConfigurationMonitor => true
  | Effect.destroyMenuProcessManager => true
  | Effect.destroyUpdaterProcessManager => true
  | Effect.destroySystemPreferencesMonitor => true
  | Effect.destroyFrontmostApplicationObserver => true
  | Effect.destroyInputSourceObserver => true
  | _ => false

/-- Teardown rank of a destruction effect: the grabber client ranks `0`,
every child-group member ranks `1`, the receiver ranks `2`; other effects
are not part of a teardown. -/
def teardownRank : Effect → Option Nat
  | Effect.destroyGrabberClient => some 0
  | Effect.destroyConfigurationMonitor => some 1
  | Effect.destroyMenuProcessManager => some 1
  | Effect.destroyUpdaterProcessManager => some 1
  | Effect.destroySystemPreferencesMonitor => some 1
  | Effect.destroyFrontmostApplicationObserver => some 1
  | Effect.destroyInputSourceObserver => some 1
  | Effect.destroyReceiver => some 2
  | _ => none

/-- The teardown ranks occurring in a trace, in trace order. -/
def ranks (l : List Effect) : List Nat :=
  l.filterMap teardownRank

/-- `true` iff a list of ranks is weakly increasing. -/
def ranksSorted : List Nat → Bool
  | a :: b :: rest => Nat.ble a b && ranksSorted (b :: rest)
  | _ => true

lemma ranks_append (l1 l2 : List Effect) : ranks (l1 ++ l2) = ranks l1 ++ ranks l2 := by
  simp [ranks, List.filterMap_append]

/-- Every teardown trace produced by `stop_grabber_client` destroys the
client (rank 0) strictly before the child components (rank 1). -/
lemma ranksSorted_stop_grabber_client (s : State) :
    ranksSorted (ranks (stop_grabber_client s).2) = true := by
  rcases s with ⟨v, a, c, r, g, cm, mp, up, sp, fa, iso⟩
  show ranksSorted (ranks (stop_grabber_client
    (State.mk true true true true g cm mp up sp fa iso)).2) = true
  cases g <;> cases cm <;> cases mp <;> cases up <;> cases sp <;> cases fa <;>
    cases iso <;> decide

/-- `stop_grabber_client` never destroys the receiver. -/
lemma destroyReceiver_not_mem_stop_grabber_client (s : State) :
    Effect.destroyReceiver ∉ (stop_grabber_client s).2 := by
  rcases s with ⟨v, a, c, r, g, cm, mp, up, sp, fa, iso⟩
  show Effect.destroyReceiver ∉ (stop_grabber_client
    (State.mk true true true true g cm mp up sp fa iso)).2
  cases g <;> cases cm <;> cases mp <;> cases up <;> cases sp <;> cases fa <;>
    cases iso <;> decide

/-- On a non-self uid, the session-identity handler's trace has the same
teardown ranks as `stop_grabber_client` (the version check and directory
creation carry no teardown rank). -/
lemma ranks_console_user_id_changed_non_self (u v : Nat) (s : State) (h : v ≠ u) :
    ranks (console_user_id_changed_task u v s).2 = ranks (stop_grabber_client s).2 := by
  cases hv : s.version_monitor <;>
    simp [console_user_id_changed_task, h, hv, ranks_append, ranks, teardownRank]

lemma destroyReceiver_not_mem_console_user_id_changed_non_self
    (u v : Nat) (s : State) (h : v ≠ u) :
    Effect.destroyReceiver ∉ (console_user_id_changed_task u v s).2 := by
  have hs := destroyReceiver_not_mem_stop_grabber_client s
  cases hv : s.version_monitor <;>
    simp_all [console_user_id_changed_task, h, hv]

set_option maxHeartbeats 2000000 in
/-- The final teardown trace is rank-sorted: client (0), then child
components (1), then the receiver (2). -/
lemma ranksSorted_destructor_task (s : State) :
    ranksSorted (ranks (destructor_task s).2) = true := by
  rcases s with ⟨v, a, c, r, g, cm, mp, up, sp, fa, iso⟩
  cases v <;> cases a <;> cases c <;> cases r <;> cases g <;> cases cm <;> cases mp <;>
    cases up <;> cases sp <;> cases fa <;> cases iso <;> decide

/-- Every effect emitted by `stop_child_components` is the destruction of a
child-group member. -/
lemma stop_child_components_all_child_destroys (s : State) :
    (stop_child_components s).2.all isChildDestroyEffect = true := by
  rcases s with ⟨v, a, c, r, g, cm, mp, up, sp, fa, iso⟩
  show (stop_child_components
    (State.mk true true true true true cm mp up sp fa iso)).2.all isChildDestroyEffect = true
  cases cm <;> cases mp <;> cases up <;> cases sp <;> cases fa <;> cases iso <;> decide

lemma not_mem_stop_child_components (s : State) (e : Effect)
    (he : isChildDestroyEffect e = false) : e ∉ (stop_child_components s).2 := by
  intro hmem
  have hall := List.all_eq_true.mp (stop_child_components_all_child_destroys s) e hmem
  rw [he] at hall
  exact Bool.false_ne_true hall

/-- On a self uid, the session-identity handler replaces the receiver slot
and emits: version check, directory creation, construction of the new
receiver, destruction of the old one (if present), the three subscriptions
and the start. -/
lemma console_user_id_changed_task_self (u : Nat) (s : State) :
    console_user_id_changed_task u u s =
      ({ s with receiver := true },
       (if s.version_monitor then [Effect.manualVersionCheck] else []) ++
       [Effect.createUserConfigDirectory] ++
       [Effect.constructReceiver] ++
       (if s.receiver then [Effect.destroyReceiver] else []) ++
       [Effect.subscribeReceiverBound, Effect.subscribeReceiverBindFailed,
        Effect.subscribeReceiverClosed, Effect.startReceiver]) := by
  simp [console_user_id_changed_task]

/-- Claim C1, counterexample: after a session-identity event with the
process's own uid processed in the `Active` state, the Client Instance and
the full Child Group are still present (the claim asserts they are
discarded and absent). -/
theorem C1_counterexample :
    (console_user_id_changed_task 501 501 activeState).1.grabber_client = true ∧
    childGroupPresent (console_user_id_changed_task 501 501 activeState).1 = true := by
  decide

/-- Claim C1, amended: a session-identity event with the process's own uid
replaces only the Endpoint Instance — a new receiver is constructed (the
old one, if any, destroyed), subscribed and started — while the Client
Instance and every Child Group member are left exactly as they were. -/
theorem C1_self_session_event_replaces_endpoint_only (u : Nat) (s : State) :
    (console_user_id_changed_task u u s).1.receiver = true ∧
    (console_user_id_changed_task u u s).1.grabber_client = s.grabber_client ∧
    (console_user_id_changed_task u u s).1.configuration_monitor = s.configuration_monitor ∧
    (console_user_id_changed_task u u s).1.menu_process_manager = s.menu_process_manager ∧
    (console_user_id_changed_task u u s).1.updater_process_manager = s.updater_process_manager ∧
    (console_user_id_changed_task u u s).1.system_preferences_monitor = s.system_preferences_monitor ∧
    (console_user_id_changed_task u u s).1.frontmost_application_observer = s.frontmost_application_observer ∧
    (console_user_id_changed_task u u s).1.input_source_observer = s.input_source_observer ∧
    Effect.constructReceiver ∈ (console_user_id_changed_task u u s).2 ∧
    Effect.subscribeReceiverBound ∈ (console_user_id_changed_task u u s).2 ∧
    Effect.subscribeReceiverBindFailed ∈ (console_user_id_changed_task u u s).2 ∧
    Effect.subscribeReceiverClosed ∈ (console_user_id_changed_task u u s).2 ∧
    (console_user_id_changed_task u u s).2.getLast? = some Effect.startReceiver := by
  rw [console_user_id_changed_task_self]
  refine ⟨rfl, rfl, rfl, rfl, rfl, rfl, rfl, rfl, ?_, ?_, ?_, ?_, ?_⟩ <;>
    cases hv : s.version_monitor <;> cases hr : s.receiver <;>
      first
      | rfl
      | simp [hv, hr]

/-- Claim C2, counterexample: a session-identity event with a non-self uid
processed in the `Active` state leaves the Endpoint Instance alive (the
claim asserts the endpoint is also discarded). -/
theorem C2_counterexample :
    (console_user_id_changed_task 501 502 activeState).1.receiver = true := by
  decide

/-- Claim C2, amended: a session-identity event with a non-self uid makes
the Client Instance and the Child Group absent, but the Endpoint Instance
is left untouched (it is not discarded). -/
theorem C2_non_self_session_event_keeps_endpoint (u v : Nat) (s : State) (h : v ≠ u) :
    (console_user_id_changed_task u v s).1.grabber_client = false ∧
    childGroupAbsent (console_user_id_changed_task u v s).1 = true ∧
    (console_user_id_changed_task u v s).1.receiver = s.receiver := by
  refine ⟨?_, ?_, ?_⟩ <;>
    simp [console_user_id_changed_task, h, stop_grabber_client, stop_child_components,
      childGroupAbsent]

theorem C2_non_self_session_event_keeps_endpoint_witness :
    (502 : Nat) ≠ 501 ∧
    (console_user_id_changed_task 501 502 activeState).1.grabber_client = false ∧
    childGroupAbsent (console_user_id_changed_task 501 502 activeState).1 = true :=
  ⟨by decide,
   (C2_non_self_session_event_keeps_endpoint 501 502 activeState (by decide)).1,
   (C2_non_self_session_event_keeps_endpoint 501 502 activeState (by decide)).2.1⟩

/-- Claim C3, counterexample: in the teardown triggered by a non-self
session-identity event from the `Active` state, the Client Instance is
destroyed strictly before the first Child Group member (the claim asserts
the Child Group is always destroyed first and the Client is never destroyed
before it). -/
theorem C3_counterexample :
    Effect.destroyGrabberClient ∈ (console_user_id_changed_task 501 502 activeState).2 ∧
    Effect.destroyMenuProcessManager ∈ (console_user_id_changed_task 501 502 activeState).2 ∧
    (console_user_id_changed_task 501 502 activeState).2.indexOf Effect.destroyGrabberClient <
      (console_user_id_changed_task 501 502 activeState).2.indexOf
        Effect.destroyMenuProcessManager := by
  decide

/-- Claim C3, amended: in every teardown (non-self session identity, bind
failure, endpoint closed, destruction) the destruction order is Client
Instance first, then the Child Group members, then the Endpoint Instance;
moreover only the final destruction teardown destroys the Endpoint — the
event-driven teardowns never do. -/
theorem C3_teardown_destroys_client_first (u v : Nat) (s : State) (h : v ≠ u) :
    ranksSorted (ranks (console_user_id_changed_task u v s).2) = true ∧
    Effect.destroyReceiver ∉ (console_user_id_changed_task u v s).2 ∧
    ranksSorted (ranks (receiver_bind_failed_task s).2) = true ∧
    Effect.destroyReceiver ∉ (receiver_bind_failed_task s).2 ∧
    ranksSorted (ranks (receiver_closed_task s).2) = true ∧
    Effect.destroyReceiver ∉ (receiver_closed_task s).2 ∧
    ranksSorted (ranks (destructor_task s).2) = true := by
  refine ⟨?_, ?_, ?_, ?_, ?_, ?_, ?_⟩
  · rw [ranks_console_user_id_changed_non_self u v s h]
    exact ranksSorted_stop_grabber_client s
  · exact destroyReceiver_not_mem_console_user_id_changed_non_self u v s h
  · exact ranksSorted_stop_grabber_client s
  · exact destroyReceiver_not_mem_stop_grabber_client s
  · exact ranksSorted_stop_grabber_client s
  · exact destroyReceiver_not_mem_stop_grabber_client s
  · exact ranksSorted_destructor_task s

theorem C3_teardown_destroys_client_first_witness :
    (502 : Nat) ≠ 501 ∧
    ranksSorted (ranks (destructor_task activeState).2) = true :=
  ⟨by decide,
   (C3_teardown_destroys_client_first 501 502 activeState (by decide)).2.2.2.2.2.2⟩

/-- Claim C4, counterexample: after a Client `connect_failed` or `closed`
event processed in the `Active` state, the Client Instance is still present
(the claim asserts it is discarded and no live Client Instance remains). -/
theorem C4_counterexample :
    (grabber_client_connect_failed_task activeState).1.grabber_client = true ∧
    (grabber_client_closed_task activeState).1.grabber_client = true := by
  decide

/-- Claim C4, amended: a Client `connect_failed` or `closed` event triggers
the manual version check (exactly once while the version monitor is alive)
and discards the Child Group, but the Client Instance is not discarded (no
client-destruction effect occurs and the slot keeps its value), and the
Endpoint is untouched; the `closed` handler performs exactly the same
transformation as the `connect_failed` handler. -/
theorem C4_connect_failure_keeps_client (s : State) :
    ((grabber_client_connect_failed_task s).2.count Effect.manualVersionCheck =
      if s.version_monitor then 1 else 0) ∧
    childGroupAbsent (grabber_client_connect_failed_task s).1 = true ∧
    (grabber_client_connect_failed_task s).1.grabber_client = s.grabber_client ∧
    (grabber_client_connect_failed_task s).1.receiver = s.receiver ∧
    Effect.destroyGrabberClient ∉ (grabber_client_connect_failed_task s).2 ∧
    grabber_client_closed_task s = grabber_client_connect_failed_task s := by
  have h0 : (stop_child_components s).2.count Effect.manualVersionCheck = 0 :=
    List.count_eq_zero.mpr (not_mem_stop_child_components s Effect.manualVersionCheck rfl)
  have h1 : Effect.destroyGrabberClient ∉ (stop_child_components s).2 :=
    not_mem_stop_child_components s Effect.destroyGrabberClient rfl
  refine ⟨?_, rfl, rfl, rfl, ?_, rfl⟩
  · cases hv : s.version_monitor <;>
      simp [grabber_client_connect_failed_task, hv, List.count_append, h0]
  · cases hv : s.version_monitor <;>
      simp [grabber_client_connect_failed_task, hv, h1]

/-- Claim C5: a `preferences_changed` event processed while a Client
Instance exists yields exactly one forwarding call carrying the same
snapshot, and the event mutates no state (so an event processed without a
client leaves no trace and can never be forwarded later); in the Scenario-A
run (self session event, endpoint bound, client connected, one preferences
event) exactly one forwarding call is recorded. -/
theorem C5_preferences_forwarded_exactly_once_iff_client (p : Nat) (s : State) :
    ((system_preferences_changed_task p s).2.count (Effect.forwardSystemPreferences p) =
      if s.grabber_client then 1 else 0) ∧
    (system_preferences_changed_task p s).1 = s ∧
    ((run 501 initialState
        [Event.consoleUserIdChanged 501, Event.receiverBound,
         Event.grabberClientConnected, Event.systemPreferencesChanged 7]).2.count
        (Effect.forwardSystemPreferences 7) = 1) := by
  refine ⟨?_, rfl, by decide⟩
  cases hg : s.grabber_client <;> simp [system_preferences_changed_task, hg]

/-- Claim C6: a `frontmost_application_changed` event whose bundle
identifier is one of the two reserved viewer identifiers is never
forwarded, even from the `Active` state (its trace is empty); any other
bundle identifier is forwarded exactly once iff a Client Instance exists. -/
theorem C6_event_viewer_bundles_never_forwarded (b f : String) (s : State) :
    ((frontmost_application_changed_task b f s).2.count
        (Effect.forwardFrontmostApplication b f) =
      if b = "org.pqrs.Karabiner.EventViewer" ∨ b = "org.pqrs.Karabiner-EventViewer" then 0
      else if s.grabber_client then 1 else 0) ∧
    (frontmost_application_changed_task b f s).1 = s ∧
    (frontmost_application_changed_task "org.pqrs.Karabiner-EventViewer" "/a" activeState).2
      = [] ∧
    (frontmost_application_changed_task "org.pqrs.Karabiner.EventViewer" "/a" activeState).2
      = [] := by
  refine ⟨?_, ?_, by decide, by decide⟩
  · by_cases hb : b = "org.pqrs.Karabiner.EventViewer" ∨ b = "org.pqrs.Karabiner-EventViewer"
    · simp [frontmost_application_changed_task, hb]
    · cases hg : s.grabber_client <;> simp [frontmost_application_changed_task, hb, hg]
  · by_cases hb : b = "org.pqrs.Karabiner.EventViewer" ∨ b = "org.pqrs.Karabiner-EventViewer" <;>
      simp [frontmost_application_changed_task, hb]

/-- Claim C7: an `alerts_changed` event launches the preferences UI exactly
once when the alert list is non-empty and never when it is empty, with no
state change and no deduplication — two consecutive identical non-empty
alert events launch twice. -/
theorem C7_nonempty_alerts_launch_preferences_once (alerts : List Nat) (s : State) :
    ((alerts_changed_task alerts s).2.count Effect.launchPreferences =
      if alerts.isEmpty then 0 else 1) ∧
    (alerts_changed_task alerts s).1 = s ∧
    ((run 501 initialState [Event.alertsChanged [1], Event.alertsChanged [1]]).2.count
        Effect.launchPreferences = 2) ∧
    ((run 501 initialState [Event.alertsChanged []]).2.count
        Effect.launchPreferences = 0) := by
  refine ⟨?_, rfl, by decide, by decide⟩
  cases alerts <;> simp [alerts_changed_task]

/-- Claim C8, counterexample: the second of two consecutive identical
self-uid session-identity events is not a side-effect-free no-op — it
triggers another manual version check and directory creation, and destroys
and restarts the Endpoint Instance created by the first event. -/
theorem C8_counterexample :
    Effect.manualVersionCheck ∈
      (console_user_id_changed_task 501 501
        (console_user_id_changed_task 501 501 initialState).1).2 ∧
    Effect.createUserConfigDirectory ∈
      (console_user_id_changed_task 501 501
        (console_user_id_changed_task 501 501 initialState).1).2 ∧
    Effect.destroyReceiver ∈
      (console_user_id_changed_task 501 501
        (console_user_id_changed_task 501 501 initialState).1).2 ∧
    Effect.startReceiver ∈
      (console_user_id_changed_task 501 501
        (console_user_id_changed_task 501 501 initialState).1).2 := by
  decide

/-- Claim C8, amended: two consecutive identical self-uid session-identity
events leave the orchestrator in exactly the same state as one such event
(state idempotence), but the second event repeats externally visible side
effects — it always emits another receiver construction and start. -/
theorem C8_repeated_self_event_state_idempotent (u : Nat) (s : State) :
    (console_user_id_changed_task u u (console_user_id_changed_task u u s).1).1 =
      (console_user_id_changed_task u u s).1 ∧
    Effect.constructReceiver ∈
      (console_user_id_changed_task u u (console_user_id_changed_task u u s).1).2 ∧
    Effect.startReceiver ∈
      (console_user_id_changed_task u u (console_user_id_changed_task u u s).1).2 := by
  simp only [console_user_id_changed_task_self]
  refine ⟨?_, ?_, ?_⟩ <;> simp

/-- Claim C9: every `alerts_changed` event is logged exactly once, first in
its trace, whether or not the alert list is empty; only the launch action
is conditional on non-emptiness. -/
theorem C9_alerts_event_always_logged (alerts : List Nat) (s : State) :
    ((alerts_changed_task alerts s).2.count Effect.logAlertsUpdated = 1) ∧
    ((alerts_changed_task alerts s).2.head? = some Effect.logAlertsUpdated) ∧
    ((alerts_changed_task [] s).2.count Effect.logAlertsUpdated = 1) := by
  refine ⟨?_, ?_, rfl⟩ <;> cases alerts <;> simp [alerts_changed_task]

/-- Claim C10: creating the Child Group constructs the Configuration
Monitor first, then constructs (and, where applicable, starts) the five
child observers, and issues the Configuration Monitor's start last — it is
the final effect and occurs exactly once, so every group member exists
before any configuration event can be observed. -/
theorem C10_configuration_monitor_started_last (s : State)
    (h : childGroupAbsent s = true) :
    childGroupPresent (start_child_components s).1 = true ∧
    (start_child_components s).2.head? = some Effect.constructConfigurationMonitor ∧
    (start_child_components s).2.getLast? = some Effect.startConfigurationMonitor ∧
    (start_child_components s).2.count Effect.startConfigurationMonitor = 1 ∧
    Effect.constructMenuProcessManager ∈ (start_child_components s).2 ∧
    Effect.constructUpdaterProcessManager ∈ (start_child_components s).2 ∧
    Effect.constructSystemPreferencesMonitor ∈ (start_child_components s).2 ∧
    Effect.startSystemPreferencesMonitor ∈ (start_child_components s).2 ∧
    Effect.constructFrontmostApplicationObserver ∈ (start_child_components s).2 ∧
    Effect.startFrontmostApplicationObserver ∈ (start_child_components s).2 ∧
    Effect.constructInputSourceObserver ∈ (start_child_components s).2 ∧
    Effect.startInputSourceObserver ∈ (start_child_components s).2 := by
  simp only [childGroupAbsent, Bool.and_eq_true, Bool.not_eq_true'] at h
  obtain ⟨⟨⟨⟨⟨h1, h2⟩, h3⟩, h4⟩, h5⟩, h6⟩ := h
  have ht : (start_child_components s).2 =
      [Effect.constructConfigurationMonitor,
       Effect.constructMenuProcessManager,
       Effect.constructUpdaterProcessManager,
       Effect.constructSystemPreferencesMonitor,
       Effect.subscribeSystemPreferencesChanged,
       Effect.startSystemPreferencesMonitor,
       Effect.constructFrontmostApplicationObserver,
       Effect.subscribeFrontmostApplicationChanged,
       Effect.startFrontmostApplicationObserver,
       Effect.constructInputSourceObserver,
       Effect.subscribeInputSourceChanged,
       Effect.startInputSourceObserver,
       Effect.startConfigurationMonitor] := by
    simp [start_child_components, h1, h2, h3, h4, h5, h6]
  rw [ht]
  exact ⟨rfl, by decide, by decide, by decide, by decide, by decide, by decide, by decide,
    by decide, by decide, by decide, by decide⟩

theorem C10_configuration_monitor_started_last_witness :
    childGroupAbsent initialState = true ∧
    (start_child_components initialState).2.getLast? = some Effect.startConfigurationMonitor :=
  ⟨by decide, (C10_configuration_monitor_started_last initialState (by decide)).2.2.1⟩

end Krbn
